import Mathlib

/-!
Verification model of `services/surfaceflinger/DisplayHardware/PowerAdvisor.cpp`
(Android SurfaceFlinger's power-hint coordinator).

The C++ code is shallowly embedded as pure Lean functions:
* machine `int64_t` values become unbounded `Int` (the durations involved are
  nanosecond counts far from the 64-bit boundary in every behaviour claimed);
* `double` / `long double` arithmetic in the deviation predicates and the
  proportional scaling becomes exact rational arithmetic (`ℚ`), with the С++
  `static_cast<int64_t>` of a `long double` modelled as truncation toward zero;
* fallible remote (binder) calls are modelled by an explicit `Bool` parameter
  giving the outcome the backend would return (`ret.isOk()`);
* reads of the monotonic clock (`systemTime()`) become an explicit `now`
  argument.

State mutation becomes explicit state passing on `AidlState` (the fields of
`AidlPowerHalWrapper`) and `CoordState` (the fields of `impl::PowerAdvisor`
together with the two function-local statics of `getPowerHal`).
-/

namespace PowerAdvisor

/-- `android::hardware::power::WorkDuration`, the record queued by
`sendActualWorkDuration` (only the two fields the code sets). -/
structure WorkDuration where
  durationNanos : Int
  timeStampNanos : Int
deriving DecidableEq, Repr

/-- Configuration constants consumed by the wrapper.  The numeric members
(`kAllowedTargetDeviationPercent`, `kAllowedActualDeviationPercent`,
`kStaleTimeout`, `kDefaultTarget`, `kTargetSafetyMargin`) are declared in
`PowerAdvisor.h`; the `.cpp` under verification only uses them, so they are
kept abstract here and instantiated with representative values in witnesses
(e.g. a 10% deviation threshold, a 100ms staleness bound, a 1ms safety
margin, matching the spec's examples).  `sNormalizeTarget` is the
`debug.sf.normalize_hint_session_durations` policy flag read at line 558. -/
structure Config where
  kAllowedTargetDeviationPercent : ℚ
  kAllowedActualDeviationPercent : ℚ
  kStaleTimeout : Int
  kDefaultTarget : Int
  kTargetSafetyMargin : Int
  sNormalizeTarget : Bool

/-- The mutable fields of `AidlPowerHalWrapper` (the Modern backend session).
`sessionRunning` stands for `mPowerHintSession != nullptr`. -/
structure AidlState where
  supportsPowerHint : Bool
  targetDuration : Int
  lastTargetDurationSent : Int
  lastActualDurationSent : Option Int
  lastActualReportTimestamp : Int
  actualDuration : Option Int
  powerHintQueue : List WorkDuration
  threadIds : List Int
  sessionRunning : Bool
  shouldReconnectHal : Bool
deriving DecidableEq, Repr

/-- `static_cast<int64_t>` applied to a (long double) quotient: truncation of
the exact rational value toward zero. -/
def truncToInt (q : ℚ) : Int :=
  q.num.tdiv q.den

namespace AidlPowerHalWrapper

/-- `AidlPowerHalWrapper::shouldSetTargetDuration`, lines 428-436: refuse a
nonpositive target, otherwise compare the relative change from the last
target actually sent against the deviation threshold. -/
def shouldSetTargetDuration (cfg : Config) (s : AidlState) (targetDurationNanos : Int) : Bool :=
  if targetDurationNanos ≤ 0 then
    false
  else
    decide (|1 - (s.lastTargetDurationSent : ℚ) / (targetDurationNanos : ℚ)| ≥
      cfg.kAllowedTargetDeviationPercent)

/-- `AidlPowerHalWrapper::setTargetWorkDuration`, lines 438-458.  Stores the
new target unconditionally; pushes it to the backend (updating
`lastTargetDurationSent` before the remote call) only in non-normalize mode
with a running session and an over-threshold change.  `remoteOk` is the
outcome of `updateTargetWorkDuration`; a failure sets the reconnect flag.
Returns the new state and whether a push was issued. -/
def setTargetWorkDuration (cfg : Config) (s : AidlState) (targetDurationNanos : Int)
    (remoteOk : Bool) : AidlState × Bool :=
  let s1 := { s with targetDuration := targetDurationNanos }
  if cfg.sNormalizeTarget = false ∧ s1.sessionRunning = true ∧
      shouldSetTargetDuration cfg s1 targetDurationNanos = true then
    let s2 := { s1 with lastTargetDurationSent := targetDurationNanos }
    if remoteOk then (s2, true) else ({ s2 with shouldReconnectHal := true }, true)
  else
    (s1, false)

/-- `AidlPowerHalWrapper::shouldReportActualDurationsNow`, lines 460-479:
report if nothing was ever sent or the last report is stale; otherwise only
if a most-recent actual duration exists and deviates from the last sent one
by at least the actual-deviation threshold. -/
def shouldReportActualDurationsNow (cfg : Config) (s : AidlState) (now : Int) : Bool :=
  match s.lastActualDurationSent with
  | none => true
  | some lastSent =>
    if now - s.lastActualReportTimestamp > cfg.kStaleTimeout then
      true
    else
      match s.actualDuration with
      | none => false
      | some a =>
        decide (|1 - (a : ℚ) / (lastSent : ℚ)| ≥ cfg.kAllowedActualDeviationPercent)

/-- Result of one `sendActualWorkDuration` call: the new wrapper state, the
record appended to `mPowerHintQueue` (if any), and whether the batched
report was attempted (`shouldReportActualDurationsNow` fired). -/
structure SendResult where
  state : AidlState
  enqueued : Option WorkDuration
  flushed : Bool
deriving DecidableEq, Repr

/-- The `reportedDuration` adjustment of lines 489-505: normalize mode
shifts the sample by `lastTargetDurationSent - targetDuration`; proportional
mode scales it by `lastTargetDurationSent / targetDuration` (truncating the
`long double` product toward zero on the `int64_t` cast) when the last sent
target is not the sentinel default and the current target is nonzero. -/
def reportedDurationOf (cfg : Config) (s : AidlState) (actualDurationNanos : Int) : Int :=
  if cfg.sNormalizeTarget then
    actualDurationNanos + (s.lastTargetDurationSent - s.targetDuration)
  else
    if s.lastTargetDurationSent ≠ cfg.kDefaultTarget ∧ s.targetDuration ≠ 0 then
      truncToInt ((s.lastTargetDurationSent : ℚ) / (s.targetDuration : ℚ) *
        (actualDurationNanos : ℚ))
    else
      actualDurationNanos

/-- `AidlPowerHalWrapper::sendActualWorkDuration`, lines 481-541.  Rejects a
negative duration or a stopped session; otherwise adjusts the sample (see
`reportedDurationOf`), enqueues it, and, when the flush predicate fires,
records the report timestamp, attempts the batched send (`remoteOk` its
outcome, a failure setting the reconnect flag), then clears the queue and
updates `lastActualDurationSent` unconditionally. -/
def sendActualWorkDuration (cfg : Config) (s : AidlState)
    (actualDurationNanos timeStampNanos now : Int) (remoteOk : Bool) : SendResult :=
  if actualDurationNanos < 0 ∨ s.sessionRunning = false then
    ⟨s, none, false⟩
  else
    let reportedDuration : Int := reportedDurationOf cfg s actualDurationNanos
    let rec0 : WorkDuration := ⟨reportedDuration, timeStampNanos⟩
    let s1 := { s with
      actualDuration := some reportedDuration
      powerHintQueue := s.powerHintQueue ++ [rec0] }
    if shouldReportActualDurationsNow cfg s1 now then
      let s2 := { s1 with lastActualReportTimestamp := now }
      let s3 := if remoteOk then s2 else { s2 with shouldReconnectHal := true }
      ⟨{ s3 with powerHintQueue := [], lastActualDurationSent := some reportedDuration },
        some rec0, true⟩
    else
      ⟨s1, some rec0, false⟩

/-- `AidlPowerHalWrapper::startPowerHintSession`, lines 411-426: fails when a
session is already open or the thread-id set is empty; on a successful
`createHintSession` the session handle is installed and
`lastTargetDurationSent` is set to the current target. -/
def startPowerHintSession (s : AidlState) (remoteOk : Bool) : AidlState × Bool :=
  if s.sessionRunning = true ∨ s.threadIds = [] then
    (s, false)
  else if remoteOk then
    ({ s with sessionRunning := true, lastTargetDurationSent := s.targetDuration }, true)
  else
    (s, false)

/-- `AidlPowerHalWrapper::closePowerHintSession`, lines 390-395. -/
def closePowerHintSession (s : AidlState) : AidlState :=
  { s with sessionRunning := false }

/-- `AidlPowerHalWrapper::restartPowerHintSession`, lines 397-400. -/
def restartPowerHintSession (s : AidlState) (remoteOk : Bool) : AidlState :=
  (startPowerHintSession (closePowerHintSession s) remoteOk).1

/-- `AidlPowerHalWrapper::setPowerHintSessionThreadIds`, lines 402-409: only
a changed set is stored, and a running session is fully restarted. -/
def setPowerHintSessionThreadIds (s : AidlState) (threadIds : List Int)
    (remoteOk : Bool) : AidlState :=
  if threadIds = s.threadIds then
    s
  else
    let s1 := { s with threadIds := threadIds }
    if s1.sessionRunning then restartPowerHintSession s1 remoteOk else s1

end AidlPowerHalWrapper

/-- The live backend session owned by `getPowerHal`: either the HIDL (Legacy)
wrapper, which has no hint-session state, or the AIDL (Modern) wrapper with
its `AidlState`. -/
inductive Wrapper where
  | legacy : Wrapper
  | modern : AidlState → Wrapper
deriving DecidableEq, Repr

namespace Wrapper

/-- `shouldReconnectHAL`: line 307 (HIDL, always false) and lines 543-545. -/
def shouldReconnectHAL : Wrapper → Bool
  | .legacy => false
  | .modern a => a.shouldReconnectHal

/-- `getPowerHintSessionThreadIds`: line 309 (HIDL) and lines 547-549. -/
def getPowerHintSessionThreadIds : Wrapper → List Int
  | .legacy => []
  | .modern a => a.threadIds

/-- `getTargetWorkDuration`: line 311 (HIDL, `nullopt`) and lines 551-553
(AIDL: always `some mTargetDuration`). -/
def getTargetWorkDuration : Wrapper → Option Int
  | .legacy => none
  | .modern a => some a.targetDuration

/-- `supportsPowerHintSession`: line 293 (HIDL, always false) and
lines 375-377 (AIDL: the probe result cached at construction). -/
def supportsPowerHintSession : Wrapper → Bool
  | .legacy => false
  | .modern a => a.supportsPowerHint

end Wrapper

/-- The fields of `impl::PowerAdvisor` together with the two function-local
statics of `getPowerHal` (`sHalWrapper`, `sHasHal`).  `hasTimer` stands for
`mScreenUpdateTimer.has_value()` (the constructor only creates the timer for
a positive update timeout, lines 84-108); `supportsPowerHintCache` is the
coordinator-side `mSupportsPowerHint` cache of lines 186-194. -/
structure CoordState where
  bootFinished : Bool
  expensiveDisplays : Finset ℕ
  notifiedExpensiveRendering : Bool
  powerHintEnabled : Option Bool
  supportsPowerHintCache : Option Bool
  powerHintSessionRunning : Bool
  reconnectPowerHal : Bool
  sendUpdateImminent : Bool
  lastScreenUpdatedTime : Int
  hasTimer : Bool
  hasHal : Bool
  halWrapper : Option Wrapper
deriving DecidableEq

/-- Outcome of one probing run of the Backend Connector (lines 597-602):
neither generation reachable, the HIDL fallback, or a fresh AIDL wrapper.
For the AIDL case, `supports` is the construction-time hint-session probe
result (line 328) and `startOk` the outcome of the `createHintSession` call
that `getPowerHal` may issue while resuming state (line 613). -/
inductive ConnectOutcome where
  | noHal : ConnectOutcome
  | legacy : ConnectOutcome
  | modern : (supports : Bool) → (startOk : Bool) → ConnectOutcome
deriving DecidableEq, Repr

/-- State of a freshly constructed `AidlPowerHalWrapper` (lines 317-329).
The member initializers live in `PowerAdvisor.h` (outside the translation
unit under verification); modelled from the spec: `targetDuration` and
`lastTargetDurationSent` start at the sentinel default target, no actual
duration has been recorded or sent, the queue and thread-id set are empty,
and no session is open. -/
def freshAidl (cfg : Config) (supports : Bool) : AidlState where
  supportsPowerHint := supports
  targetDuration := cfg.kDefaultTarget
  lastTargetDurationSent := cfg.kDefaultTarget
  lastActualDurationSent := none
  lastActualReportTimestamp := 0
  actualDuration := none
  powerHintQueue := []
  threadIds := []
  sessionRunning := false
  shouldReconnectHal := false

/-- `PowerAdvisor::usePowerHintSession`, lines 181-184, in the steady state
where the `mSupportsPowerHint` cache is already populated (an unset cache
makes the real code re-enter `getPowerHal`; the claims below are stated for
populated-cache executions). -/
def usePowerHintSession (st : CoordState) : Bool :=
  (st.powerHintEnabled.getD false) && (st.supportsPowerHintCache.getD false)

/-- Result of `PowerAdvisor::getPowerHal`: the post-call coordinator state,
the returned wrapper pointer (`none` = `nullptr`), and how many probing runs
of the Backend Connector were performed (0 or 1). -/
structure HalResult where
  state : CoordState
  wrapper : Option Wrapper
  attempts : ℕ
deriving DecidableEq

/-- Lines 594-624 of `PowerAdvisor::getPowerHal`: clear the running flag,
run one probing pass (AIDL first, HIDL fallback), and on an AIDL success
reapply the snapshotted thread ids, push a snapshotted target duration if
present, and restart the hint session when the policy allows it and the
snapshotted thread-id set is non-empty; if neither generation connected,
latch `sHasHal = false`. -/
def connectAndResume (cfg : Config) (st : CoordState) (oldIds : List Int)
    (oldTarget : Option Int) (outcome : ConnectOutcome) : HalResult :=
  let st1 := { st with powerHintSessionRunning := false, halWrapper := none }
  match outcome with
  | .noHal => ⟨{ st1 with hasHal := false }, none, 1⟩
  | .legacy => ⟨{ st1 with halWrapper := some .legacy }, some .legacy, 1⟩
  | .modern supports startOk =>
    let a1 := AidlPowerHalWrapper.setPowerHintSessionThreadIds (freshAidl cfg supports)
      oldIds true
    match oldTarget with
    | none => ⟨{ st1 with halWrapper := some (.modern a1) }, some (.modern a1), 1⟩
    | some t =>
      let a2 := (AidlPowerHalWrapper.setTargetWorkDuration cfg a1 t true).1
      if usePowerHintSession st1 = true ∧ oldIds ≠ [] then
        let r := AidlPowerHalWrapper.startPowerHintSession a2 startOk
        ⟨{ st1 with halWrapper := some (.modern r.1), powerHintSessionRunning := r.2 },
          some (.modern r.1), 1⟩
      else
        ⟨{ st1 with halWrapper := some (.modern a2) }, some (.modern a2), 1⟩

/-- `PowerAdvisor::getPowerHal`, lines 561-625.  `outcome` is what one
probing run of the Backend Connector would yield if performed. -/
def getPowerHal (cfg : Config) (st : CoordState) (outcome : ConnectOutcome) : HalResult :=
  if st.hasHal = false then
    ⟨st, none, 0⟩
  else
    let oldIds := (st.halWrapper.map Wrapper.getPowerHintSessionThreadIds).getD []
    let oldTarget := (st.halWrapper.map Wrapper.getTargetWorkDuration).getD none
    let st1 :=
      if st.reconnectPowerHal then { st with halWrapper := none, reconnectPowerHal := false }
      else st
    match st1.halWrapper with
    | some w =>
      if w.shouldReconnectHAL = false then
        ⟨st1, some w, 0⟩
      else
        connectAndResume cfg { st1 with halWrapper := none } oldIds oldTarget outcome
    | none => connectAndResume cfg st1 oldIds oldTarget outcome

/-- `PowerAdvisor::supportsPowerHintSession`, lines 186-194.  When the cache
is unset the code calls `getPowerHal` and dereferences the returned pointer
WITHOUT a null check; a `none` result here models that null-pointer
dereference (the call faults instead of returning). -/
def supportsPowerHintSessionCoord (cfg : Config) (st : CoordState)
    (outcome : ConnectOutcome) : Option (Bool × CoordState) :=
  match st.supportsPowerHintCache with
  | some v => some (v, st)
  | none =>
    let r := getPowerHal cfg st outcome
    match r.wrapper with
    | none => none
    | some w =>
      some (w.supportsPowerHintSession,
        { r.state with supportsPowerHintCache := some w.supportsPowerHintSession })

/-- The `mExpensiveDisplays` update at lines 122-126. -/
def updatedDisplays (st : CoordState) (displayId : ℕ) (expected : Bool) : Finset ℕ :=
  if expected then insert displayId st.expensiveDisplays
  else st.expensiveDisplays.erase displayId

/-- `PowerAdvisor::setExpensiveRenderingExpected`, lines 121-144.  Returns
the new coordinator state and the list of `setExpensiveRendering` toggle
calls handed to the backend session during this call (empty or a singleton).
`sendOk` is the wrapper call's result; a failure sets the reconnect flag and
leaves `mNotifiedExpensiveRendering` unchanged. -/
def setExpensiveRenderingExpected (cfg : Config) (st : CoordState) (displayId : ℕ)
    (expected : Bool) (outcome : ConnectOutcome) (sendOk : Bool) : CoordState × List Bool :=
  let st1 := { st with expensiveDisplays := updatedDisplays st displayId expected }
  let expectsExpensiveRendering : Bool := decide (st1.expensiveDisplays ≠ ∅)
  if st1.notifiedExpensiveRendering ≠ expectsExpensiveRendering then
    let r := getPowerHal cfg st1 outcome
    match r.wrapper with
    | none => (r.state, [])
    | some _ =>
      if sendOk = false then
        ({ r.state with reconnectPowerHal := true }, [expectsExpensiveRendering])
      else
        ({ r.state with notifiedExpensiveRendering := expectsExpensiveRendering },
          [expectsExpensiveRendering])
  else
    (st1, [])

/-- `PowerAdvisor::notifyDisplayUpdateImminent`, lines 146-178.  Returns the
new state and the number of `notifyDisplayUpdateImminent` calls handed to
the backend session (0 or 1).  Gated on `bootFinished`; consumes the armed
flag (`mSendUpdateImminent.exchange(false)`); with a debounce timer present
the flag stays down until the timer fires, otherwise it is re-armed at once. -/
def notifyDisplayUpdateImminentCoord (cfg : Config) (st : CoordState)
    (outcome : ConnectOutcome) (sendOk : Bool) (now : Int) : CoordState × ℕ :=
  if st.bootFinished = false then
    (st, 0)
  else
    let wasArmed := st.sendUpdateImminent
    let st1 := { st with sendUpdateImminent := false }
    if wasArmed then
      let r := getPowerHal cfg st1 outcome
      match r.wrapper with
      | none => (r.state, 0)
      | some _ =>
        if sendOk = false then
          ({ r.state with reconnectPowerHal := true }, 1)
        else
          let st2 := if r.state.hasTimer then r.state
            else { r.state with sendUpdateImminent := true }
          let st3 := if st2.hasTimer then { st2 with lastScreenUpdatedTime := now } else st2
          (st3, 1)
    else
      let st2 := if st1.hasTimer then { st1 with lastScreenUpdatedTime := now } else st1
      (st2, 0)

/-- The debounce timer's timeout callback (lines 90-106) as far as the armed
flag is concerned: once the waiting loop finishes it re-arms
`mSendUpdateImminent`. -/
def timerFire (st : CoordState) : CoordState :=
  { st with sendUpdateImminent := true }

/-- `n` consecutive `notifyDisplayUpdateImminent` calls with no timer fire in
between; returns the final state and the total number of backend calls. -/
def runImminent (cfg : Config) (outcome : ConnectOutcome) (sendOk : Bool) (now : Int) :
    CoordState → ℕ → CoordState × ℕ
  | st, 0 => (st, 0)
  | st, n + 1 =>
    let r1 := notifyDisplayUpdateImminentCoord cfg st outcome sendOk now
    let r2 := runImminent cfg outcome sendOk now r1.1 n
    (r2.1, r1.2 + r2.2)

/-- A run of `setExpensiveRenderingExpected` calls (each input: display id,
expected flag); all wrapper calls succeed and no reconnect is pending, the
regime in which the toggle-call pattern is claimed.  Returns the final state
and the concatenated toggle-call trace. -/
def runExpensive (cfg : Config) (outcome : ConnectOutcome) :
    CoordState → List (ℕ × Bool) → CoordState × List Bool
  | st, [] => (st, [])
  | st, (d, e) :: rest =>
    let r1 := setExpensiveRenderingExpected cfg st d e outcome true
    let r2 := runExpensive cfg outcome r1.1 rest
    (r2.1, r1.2 ++ r2.2)

/-- `PowerAdvisor::setTargetWorkDuration`, lines 200-212.  Returns the new
state and the duration value handed to the backend session's
`setTargetWorkDuration` (if any): the argument minus the fixed safety
margin. -/
def setTargetWorkDurationCoord (cfg : Config) (st : CoordState) (targetDurationNanos : Int)
    (outcome : ConnectOutcome) (remoteOk : Bool) : CoordState × Option Int :=
  if usePowerHintSession st = false then
    (st, none)
  else
    let handed := targetDurationNanos - cfg.kTargetSafetyMargin
    let r := getPowerHal cfg st outcome
    match r.wrapper with
    | none => (r.state, none)
    | some .legacy => (r.state, some handed)
    | some (.modern a) =>
      let a1 := (AidlPowerHalWrapper.setTargetWorkDuration cfg a handed remoteOk).1
      ({ r.state with halWrapper := some (.modern a1) }, some handed)

/-- A wrapper is live for the coordinator: the singleton exists, no reconnect
was requested, and the wrapper itself does not ask to reconnect — exactly
the condition under which `getPowerHal` returns it untouched. -/
def wrapperLive (st : CoordState) : Prop :=
  st.hasHal = true ∧ st.reconnectPowerHal = false ∧
    ∃ w, st.halWrapper = some w ∧ w.shouldReconnectHAL = false

/-! Concrete instances used by witnesses and counterexamples. -/

/-- Representative configuration: 10% deviation thresholds, 100ms staleness
bound, a 16.666ms sentinel default target, a 1ms safety margin,
proportional (non-normalize) reporting mode. -/
def cfgW : Config :=
  ⟨1/10, 1/10, 100000000, 16666666, 1000000, false⟩

/-- A Modern session with a running hint session whose last sent target and
current target are both 1,000,000ns (the spec's target-push example). -/
def sRun1M : AidlState :=
  ⟨true, 1000000, 1000000, some 1000000, 0, none, [], [1, 2], true, false⟩

/-- A Modern session with last sent target 10ms and current target 11ms (the
spec's proportional-mode example). -/
def sProp : AidlState :=
  ⟨true, 11000000, 10000000, some 10000000, 0, none, [], [1, 2], true, false⟩

/-- A running Modern session that has never sent an actual-duration report
(`lastActualDurationSent = none`) and holds one queued record. -/
def sNeverSent : AidlState :=
  ⟨true, 11000000, 10000000, none, 0, none, [⟨100, 1⟩], [1, 2], true, false⟩

/-- A running Modern session that reported 10ms recently (its last sent
target still the sentinel default, so samples are not rescaled). -/
def sRecent : AidlState where
  supportsPowerHint := true
  targetDuration := 16666666
  lastTargetDurationSent := 16666666
  lastActualDurationSent := some 10000000
  lastActualReportTimestamp := 0
  actualDuration := some 10000000
  powerHintQueue := []
  threadIds := [1, 2]
  sessionRunning := true
  shouldReconnectHal := false

/-- Coordinator about to perform its first probing run. -/
def stProbe : CoordState where
  bootFinished := true
  expensiveDisplays := ∅
  notifiedExpensiveRendering := false
  powerHintEnabled := some true
  supportsPowerHintCache := none
  powerHintSessionRunning := false
  reconnectPowerHal := false
  sendUpdateImminent := true
  lastScreenUpdatedTime := 0
  hasTimer := true
  hasHal := true
  halWrapper := none

/-- Coordinator after a probing run found neither generation reachable
(`sHasHal` latched false), hint-support cache still unset. -/
def stUnreachable : CoordState :=
  { stProbe with hasHal := false }

/-- An outgoing Modern session that demands a reconnect, with thread ids
`[1, 2]` and target 5,000,000ns to be resumed. -/
def amStale : AidlState where
  supportsPowerHint := true
  targetDuration := 5000000
  lastTargetDurationSent := 4000000
  lastActualDurationSent := some 3000000
  lastActualReportTimestamp := 0
  actualDuration := some 1
  powerHintQueue := []
  threadIds := [1, 2]
  sessionRunning := true
  shouldReconnectHal := true

/-- Coordinator holding `amStale` with the reconnect flag set, power-hint
policy enabled and support cached. -/
def stReconnect : CoordState where
  bootFinished := true
  expensiveDisplays := ∅
  notifiedExpensiveRendering := false
  powerHintEnabled := some true
  supportsPowerHintCache := some true
  powerHintSessionRunning := true
  reconnectPowerHal := true
  sendUpdateImminent := true
  lastScreenUpdatedTime := 0
  hasTimer := true
  hasHal := true
  halWrapper := some (.modern amStale)

/-- Coordinator with a live (non-reconnecting) Modern wrapper, boot
finished, debounce timer present, armed, policy enabled. -/
def stLive : CoordState :=
  { stReconnect with
    reconnectPowerHal := false
    halWrapper := some (.modern { amStale with shouldReconnectHal := false }) }

/-! ## Theorems -/

open AidlPowerHalWrapper

section

/- The Batteries rational-arithmetic primitives are `@[irreducible]`, which
blocks `decide`-based evaluation on concrete instances; restore default
reducibility for the proofs in this section. -/
attribute [local semireducible] Rat.mul Rat.inv Rat.add Rat.sub

/-- C4: the Modern session's flush predicate returns true exactly when no
actual-duration report was ever sent, or the elapsed time since the last
sent report exceeds the staleness bound, or a most-recent actual duration
exists whose relative change from the last sent actual duration is at least
the actual-deviation threshold; otherwise (in particular when nothing has
been recorded yet but a report was sent recently) it returns false — and
whenever a `sendActualWorkDuration` call does not flush, its record (if it
was accepted at all) stays appended to the queue, unsent. -/
theorem C4_flush_predicate (cfg : Config) (s : AidlState) (now actual t : Int)
    (remoteOk : Bool) :
    (shouldReportActualDurationsNow cfg s now = true ↔
      (s.lastActualDurationSent = none ∨
        now - s.lastActualReportTimestamp > cfg.kStaleTimeout ∨
        ∃ a lastSent, s.actualDuration = some a ∧ s.lastActualDurationSent = some lastSent ∧
          |1 - (a : ℚ) / (lastSent : ℚ)| ≥ cfg.kAllowedActualDeviationPercent)) ∧
    ((sendActualWorkDuration cfg s actual t now remoteOk).flushed = false →
      ((sendActualWorkDuration cfg s actual t now remoteOk).enqueued = none ∧
        (sendActualWorkDuration cfg s actual t now remoteOk).state.powerHintQueue =
          s.powerHintQueue) ∨
      (∃ r, (sendActualWorkDuration cfg s actual t now remoteOk).enqueued = some r ∧
        (sendActualWorkDuration cfg s actual t now remoteOk).state.powerHintQueue =
          s.powerHintQueue ++ [r])) := by
  constructor
  · rcases hls : s.lastActualDurationSent with _ | lastSent <;>
      rcases ha : s.actualDuration with _ | a <;>
      by_cases hstale : now - s.lastActualReportTimestamp > cfg.kStaleTimeout <;>
      simp [shouldReportActualDurationsNow, hls, ha, hstale]
  · intro hf
    by_cases hok : (actual < 0 ∨ s.sessionRunning = false)
    · left
      simp [sendActualWorkDuration, hok]
    · right
      simp only [sendActualWorkDuration, if_neg hok] at hf ⊢
      split at hf
      · simp at hf
      · next hcond =>
        simp only [if_neg hcond]
        exact ⟨_, rfl, rfl⟩

/-- C4 witness: the spec's batching example — a report sent 10ms ago
(staleness bound 100ms) and a new sample deviating by 2% (threshold 10%)
does not flush, so applying the theorem shows the record is queued and
unsent. -/
theorem C4_witness :
    ((sendActualWorkDuration cfgW sRecent 10200000 5 10000000 true).enqueued = none ∧
      (sendActualWorkDuration cfgW sRecent 10200000 5 10000000 true).state.powerHintQueue =
        sRecent.powerHintQueue) ∨
    (∃ r, (sendActualWorkDuration cfgW sRecent 10200000 5 10000000 true).enqueued = some r ∧
      (sendActualWorkDuration cfgW sRecent 10200000 5 10000000 true).state.powerHintQueue =
        sRecent.powerHintQueue ++ [r]) :=
  (C4_flush_predicate cfgW sRecent 10000000 10200000 5 true).2 (by decide)

/-- The push predicate of lines 428-436, characterised: a positive target
whose relative change from the last sent target meets the threshold. -/
theorem shouldSetTargetDuration_iff (cfg : Config) (s : AidlState) (d : Int) :
    shouldSetTargetDuration cfg s d = true ↔
      (0 < d ∧ |1 - (s.lastTargetDurationSent : ℚ) / (d : ℚ)| ≥
        cfg.kAllowedTargetDeviationPercent) := by
  unfold shouldSetTargetDuration
  split
  · next h =>
    simp only [Bool.false_eq_true, false_iff]
    rintro ⟨h1, -⟩
    omega
  · next h =>
    simp only [decide_eq_true_eq]
    exact ⟨fun hdev => ⟨by omega, hdev⟩, fun h => h.2⟩

/-- C2 (amended): in non-normalize mode, `setTargetWorkDuration(d)` stores
`d` unconditionally, and a target-update call is issued to the backend
exactly when the hint session is running, `d` is positive, and the relative
change from the last target sent is at least the deviation threshold; a push
updates `lastTargetDurationSent` to `d`. -/
theorem C2_target_push_iff (cfg : Config) (s : AidlState) (d : Int) (remoteOk : Bool)
    (hmode : cfg.sNormalizeTarget = false) :
    (setTargetWorkDuration cfg s d remoteOk).1.targetDuration = d ∧
    ((setTargetWorkDuration cfg s d remoteOk).2 = true ↔
      (s.sessionRunning = true ∧ 0 < d ∧
        |1 - (s.lastTargetDurationSent : ℚ) / (d : ℚ)| ≥ cfg.kAllowedTargetDeviationPercent)) ∧
    ((setTargetWorkDuration cfg s d remoteOk).2 = true →
      (setTargetWorkDuration cfg s d remoteOk).1.lastTargetDurationSent = d) := by
  have hiff := shouldSetTargetDuration_iff cfg { s with targetDuration := d } d
  simp only at hiff
  by_cases hrun : s.sessionRunning = true
  · by_cases hst : shouldSetTargetDuration cfg { s with targetDuration := d } d = true
    · have hdev := hiff.mp hst
      simp only [hrun] at hst
      cases remoteOk <;>
        simp [setTargetWorkDuration, hmode, hrun, hst, hdev.1, hdev.2]
    · have hnd : ¬(0 < d ∧ |1 - (s.lastTargetDurationSent : ℚ) / (d : ℚ)| ≥
          cfg.kAllowedTargetDeviationPercent) := fun h => hst (hiff.mpr h)
      simp only [hrun] at hst
      cases remoteOk <;>
        simp [setTargetWorkDuration, hmode, hrun, hst] <;>
        exact fun h1 => not_le.mp fun h2 => hnd ⟨h1, h2⟩
  · cases remoteOk <;> simp [setTargetWorkDuration, hrun]

/-- C2 counterexample: with the session running, last sent target
1,000,000ns and a 10% threshold, the claim's predicate
`|1 - lastSent/d| ≥ threshold` holds at `d = -1,000,000`, yet the code
issues no push (its `targetDurationNanos <= 0` guard fires first). -/
theorem C2_counterexample :
    (setTargetWorkDuration cfgW sRun1M (-1000000) true).2 = false ∧
    sRun1M.sessionRunning = true ∧ cfgW.sNormalizeTarget = false ∧
    |1 - (sRun1M.lastTargetDurationSent : ℚ) / ((-1000000 : Int) : ℚ)| ≥
      cfgW.kAllowedTargetDeviationPercent := by
  decide

/-- C2 witness: the amended theorem applied at the spec's example: last sent
1,000,000ns, 10% threshold, `d = 1,150,000` pushes and updates the last sent
target; and (directly) `d = 1,050,000` does not push. -/
theorem C2_witness :
    ((setTargetWorkDuration cfgW sRun1M 1150000 true).1.targetDuration = 1150000 ∧
      ((setTargetWorkDuration cfgW sRun1M 1150000 true).2 = true ↔
        (sRun1M.sessionRunning = true ∧ 0 < (1150000 : Int) ∧
          |1 - (sRun1M.lastTargetDurationSent : ℚ) / ((1150000 : Int) : ℚ)| ≥
            cfgW.kAllowedTargetDeviationPercent)) ∧
      ((setTargetWorkDuration cfgW sRun1M 1150000 true).2 = true →
        (setTargetWorkDuration cfgW sRun1M 1150000 true).1.lastTargetDurationSent = 1150000)) ∧
    (setTargetWorkDuration cfgW sRun1M 1150000 true).2 = true ∧
    (setTargetWorkDuration cfgW sRun1M 1050000 true).2 = false :=
  ⟨C2_target_push_iff cfgW sRun1M 1150000 true rfl, by decide, by decide⟩

/-- C3: in proportional (non-normalize) mode, with a running hint session
and a nonnegative actual duration, the record enqueued by
`sendActualWorkDuration` carries the actual duration scaled by
`lastTargetDurationSent / targetDuration` and truncated toward zero when
the last sent target differs from the sentinel default and the current
target is nonzero, and the unchanged actual duration otherwise. -/
theorem C3_proportional_scaling (cfg : Config) (s : AidlState)
    (actual t now : Int) (remoteOk : Bool) (hmode : cfg.sNormalizeTarget = false)
    (hrun : s.sessionRunning = true) (hpos : 0 ≤ actual) :
    (sendActualWorkDuration cfg s actual t now remoteOk).enqueued =
      some ⟨if s.lastTargetDurationSent ≠ cfg.kDefaultTarget ∧ s.targetDuration ≠ 0 then
          truncToInt ((s.lastTargetDurationSent : ℚ) / (s.targetDuration : ℚ) * (actual : ℚ))
        else actual, t⟩ := by
  have hok : ¬(actual < 0 ∨ s.sessionRunning = false) := by
    rintro (h | h)
    · omega
    · rw [hrun] at h
      exact Bool.true_eq_false.mp h
  unfold sendActualWorkDuration reportedDurationOf
  rw [if_neg hok]
  simp only [hmode, Bool.false_eq_true, if_false]
  split <;> split <;> rfl

/-- C3 witness: the theorem applied at the spec's example (last sent target
10ms, current target 11ms, actual 9ms), with the enqueued duration
evaluated: 9,000,000 × 10/11 truncated = 8,181,818ns ≈ 8.18ms. -/
theorem C3_witness :
    (sendActualWorkDuration cfgW sProp 9000000 42 0 true).enqueued =
      some ⟨8181818, 42⟩ := by
  have h := C3_proportional_scaling cfgW sProp 9000000 42 0 true rfl rfl (by decide)
  rw [h]
  decide

/-- C10: whenever the Modern session's `setTargetWorkDuration` issues a
push, `lastTargetDurationSent` is assigned the new target no matter how the
remote call turns out; the failed-call state is the successful-call state
with only the reconnect flag additionally set. -/
theorem C10_lastTargetSent_kept_on_failed_push (cfg : Config) (s : AidlState) (d : Int)
    (hpush : (setTargetWorkDuration cfg s d false).2 = true) :
    (setTargetWorkDuration cfg s d false).1.lastTargetDurationSent = d ∧
    (setTargetWorkDuration cfg s d true).1.lastTargetDurationSent = d ∧
    (setTargetWorkDuration cfg s d false).1 =
      { (setTargetWorkDuration cfg s d true).1 with shouldReconnectHal := true } := by
  by_cases hrun : s.sessionRunning = true
  · by_cases hst : shouldSetTargetDuration cfg { s with targetDuration := d } d = true
    · by_cases hmode : cfg.sNormalizeTarget = false
      · simp only [hrun] at hst
        simp [setTargetWorkDuration, hmode, hrun, hst]
      · simp [setTargetWorkDuration, hmode] at hpush
    · simp only [hrun] at hst
      simp [setTargetWorkDuration, hrun, hst] at hpush
  · simp [setTargetWorkDuration, hrun] at hpush

/-- C10 witness: the theorem applied at a concrete over-threshold push
(last sent 1,000,000ns, new target 1,150,000ns, 10% threshold). -/
theorem C10_witness :
    (setTargetWorkDuration cfgW sRun1M 1150000 false).1.lastTargetDurationSent = 1150000 ∧
    (setTargetWorkDuration cfgW sRun1M 1150000 true).1.lastTargetDurationSent = 1150000 ∧
    (setTargetWorkDuration cfgW sRun1M 1150000 false).1 =
      { (setTargetWorkDuration cfgW sRun1M 1150000 true).1 with shouldReconnectHal := true } :=
  C10_lastTargetSent_kept_on_failed_push cfgW sRun1M 1150000 (by decide)

/-- C1 (amended): when the flush decision fires, the batched send is
attempted and the pending queue is cleared regardless of the outcome; a
failed send sets the reconnect flag and leaves the queue exactly as empty
as a successful send does — the batch is dropped, not retained. -/
theorem C1_flush_clears_queue_even_on_failure (cfg : Config) (s : AidlState)
    (actual t now : Int)
    (hflush : (sendActualWorkDuration cfg s actual t now false).flushed = true) :
    (sendActualWorkDuration cfg s actual t now false).state.powerHintQueue = [] ∧
    (sendActualWorkDuration cfg s actual t now false).state.shouldReconnectHal = true ∧
    (sendActualWorkDuration cfg s actual t now false).state.powerHintQueue =
      (sendActualWorkDuration cfg s actual t now true).state.powerHintQueue := by
  by_cases hok : (actual < 0 ∨ s.sessionRunning = false)
  · simp [sendActualWorkDuration, hok] at hflush
  · simp only [sendActualWorkDuration, if_neg hok] at hflush ⊢
    set r := reportedDurationOf cfg s actual with hr
    split at hflush
    · next hcond => simp [hcond]
    · simp at hflush

/-- C1 counterexample: a concrete failed batched send (running session, one
previously queued record, no report ever sent so the flush decision fires,
remote reports failure): the code clears the queue anyway — the queued
records do not remain queued. -/
theorem C1_counterexample :
    (sendActualWorkDuration cfgW sNeverSent 200 2 50 false).flushed = true ∧
    (sendActualWorkDuration cfgW sNeverSent 200 2 50 false).state.shouldReconnectHal = true ∧
    sNeverSent.powerHintQueue ≠ [] ∧
    (sendActualWorkDuration cfgW sNeverSent 200 2 50 false).state.powerHintQueue = [] := by
  decide

/-- C1 witness: the amended theorem applied at the concrete failed send. -/
theorem C1_witness :
    (sendActualWorkDuration cfgW sNeverSent 200 2 50 false).state.powerHintQueue = [] ∧
    (sendActualWorkDuration cfgW sNeverSent 200 2 50 false).state.shouldReconnectHal = true ∧
    (sendActualWorkDuration cfgW sNeverSent 200 2 50 false).state.powerHintQueue =
      (sendActualWorkDuration cfgW sNeverSent 200 2 50 true).state.powerHintQueue :=
  C1_flush_clears_queue_even_on_failure cfgW sNeverSent 200 2 50 (by decide)

/-- C5: after the probing run at `stProbe` finds neither generation
(`noHal`), `sHasHal` latches false (`stUnreachable`); from then on every
`getPowerHal` performs zero connection attempts and returns no wrapper, and
`setExpensiveRenderingExpected` / `notifyDisplayUpdateImminent` touch no
backend — but `supportsPowerHintSession` with its cache still unset
dereferences the null wrapper (the faulting `none` result), contradicting
the claim's "without faulting". -/
theorem C5_unreachable_no_retry_but_supports_faults :
    (getPowerHal cfgW stProbe .noHal) = ⟨stUnreachable, none, 1⟩ ∧
    (∀ outcome, getPowerHal cfgW stUnreachable outcome = ⟨stUnreachable, none, 0⟩) ∧
    (∀ outcome sendOk,
      (setExpensiveRenderingExpected cfgW stUnreachable 1 true outcome sendOk).2 = []) ∧
    (∀ outcome sendOk now,
      (notifyDisplayUpdateImminentCoord cfgW stUnreachable outcome sendOk now).2 = 0) ∧
    (∀ outcome, supportsPowerHintSessionCoord cfgW stUnreachable outcome = none) := by
  refine ⟨by decide, fun outcome => rfl, fun outcome sendOk => rfl,
    fun outcome sendOk now => rfl, fun outcome => rfl⟩

/-- With a live wrapper (singleton present, no reconnect requested by flag
or wrapper), `getPowerHal` returns it with the state untouched and no
probing run (lines 584-589). -/
theorem getPowerHal_live (cfg : Config) (st : CoordState) (outcome : ConnectOutcome)
    (h : wrapperLive st) : getPowerHal cfg st outcome = ⟨st, st.halWrapper, 0⟩ := by
  obtain ⟨h1, h2, w, hw, hwr⟩ := h
  simp [getPowerHal, h1, h2, hw, hwr]

/-- C9 (amended): the safety margin is subtracted by the Coordinator itself,
not by its caller: whenever `PowerAdvisor::setTargetWorkDuration(d)` hands a
duration to the backend session, that value is `d - kTargetSafetyMargin`,
not `d`. -/
theorem C9_margin_subtracted_by_coordinator (cfg : Config) (st : CoordState)
    (d : Int) (outcome : ConnectOutcome) (remoteOk : Bool) (v : Int)
    (hv : (setTargetWorkDurationCoord cfg st d outcome remoteOk).2 = some v) :
    v = d - cfg.kTargetSafetyMargin := by
  by_cases huse : usePowerHintSession st = false
  · simp [setTargetWorkDurationCoord, huse] at hv
  · rcases hw : (getPowerHal cfg st outcome).wrapper with _ | w
    · simp [setTargetWorkDurationCoord, huse, hw] at hv
    · cases w <;>
        · simp [setTargetWorkDurationCoord, huse, hw] at hv
          omega

/-- C9 counterexample: with the representative 1ms margin, a live Modern
session and the policy enabled, `setTargetWorkDuration(5,000,000)` hands
4,000,000ns to the backend session — not its argument unchanged. -/
theorem C9_counterexample :
    (setTargetWorkDurationCoord cfgW stLive 5000000 .legacy true).2 = some 4000000 ∧
    (setTargetWorkDurationCoord cfgW stLive 5000000 .legacy true).2 ≠ some 5000000 := by
  decide

/-- C9 witness: the amended theorem applied at the concrete call above. -/
theorem C9_witness : (4000000 : Int) = 5000000 - cfgW.kTargetSafetyMargin :=
  C9_margin_subtracted_by_coordinator cfgW stLive 5000000 .legacy true 4000000 (by decide)

/-- Lines 603-616 specialised to an AIDL success with a snapshotted target:
one probing run, the fresh session carries the snapshotted thread ids and
target, and when the policy allows and the id set is non-empty the session
is restarted with success mirroring the backend call. -/
theorem connectAndResume_modern (cfg : Config) (st : CoordState) (oldIds : List Int)
    (t : Int) (supports startOk : Bool) :
    (connectAndResume cfg st oldIds (some t) (.modern supports startOk)).attempts = 1 ∧
    ∃ a, (connectAndResume cfg st oldIds (some t) (.modern supports startOk)).wrapper =
        some (.modern a) ∧
      a.threadIds = oldIds ∧ a.targetDuration = t ∧
      ((usePowerHintSession st = true ∧ oldIds ≠ []) →
        a.sessionRunning = startOk ∧
        (connectAndResume cfg st oldIds (some t)
            (.modern supports startOk)).state.powerHintSessionRunning = startOk ∧
        (startOk = true → a.lastTargetDurationSent = t)) := by
  have hup : usePowerHintSession
      { st with powerHintSessionRunning := false, halWrapper := none } =
      usePowerHintSession st := rfl
  rcases hids : oldIds with _ | ⟨i, ids⟩
  · simp only [connectAndResume, AidlPowerHalWrapper.setPowerHintSessionThreadIds,
      AidlPowerHalWrapper.setTargetWorkDuration, freshAidl, hup]
    simp
  · by_cases huse : usePowerHintSession st = true <;>
      cases startOk <;>
      simp only [connectAndResume, AidlPowerHalWrapper.setPowerHintSessionThreadIds,
        AidlPowerHalWrapper.setTargetWorkDuration,
        AidlPowerHalWrapper.startPowerHintSession, freshAidl, hup, huse] <;>
      simp [huse]

/-- C6: with a pending reconnect (coordinator flag set or the outgoing
Modern session demanding it), the next `getPowerHal` performs exactly one
probing run, snapshotting the outgoing session's thread ids and target
duration first; on a successful Modern reconnect the fresh session carries
the snapshotted ids and target, and — when the power-hint policy is enabled
and the snapshotted id set is non-empty — the hint session is restarted,
running exactly when the backend's create call succeeds (which also sends
the snapshotted target). -/
theorem C6_reconnect_resumes_modern_state (cfg : Config) (st : CoordState)
    (am : AidlState) (supports startOk : Bool)
    (hhal : st.hasHal = true)
    (hw : st.halWrapper = some (.modern am))
    (hrec : st.reconnectPowerHal = true ∨ am.shouldReconnectHal = true) :
    (getPowerHal cfg st (.modern supports startOk)).attempts = 1 ∧
    ∃ a, (getPowerHal cfg st (.modern supports startOk)).wrapper = some (.modern a) ∧
      a.threadIds = am.threadIds ∧ a.targetDuration = am.targetDuration ∧
      ((usePowerHintSession st = true ∧ am.threadIds ≠ []) →
        a.sessionRunning = startOk ∧
        (getPowerHal cfg st (.modern supports startOk)).state.powerHintSessionRunning =
          startOk ∧
        (startOk = true → a.lastTargetDurationSent = am.targetDuration)) := by
  rcases hflag : st.reconnectPowerHal with _ | _
  · have ham : am.shouldReconnectHal = true := by
      rcases hrec with h | h
      · rw [hflag] at h
        exact absurd h (by simp)
      · exact h
    have := connectAndResume_modern cfg
      { st with reconnectPowerHal := false, halWrapper := none }
      am.threadIds am.targetDuration supports startOk
    simpa [getPowerHal, hhal, hw, hflag, ham, Wrapper.shouldReconnectHAL,
      Wrapper.getPowerHintSessionThreadIds, Wrapper.getTargetWorkDuration,
      usePowerHintSession] using this
  · have := connectAndResume_modern cfg
      { st with halWrapper := none, reconnectPowerHal := false }
      am.threadIds am.targetDuration supports startOk
    simpa [getPowerHal, hhal, hw, hflag, Wrapper.shouldReconnectHAL,
      Wrapper.getPowerHintSessionThreadIds, Wrapper.getTargetWorkDuration,
      usePowerHintSession] using this

/-- C6 witness: the theorem applied at a concrete reconnect (outgoing
session with ids `[1, 2]`, target 5,000,000ns, reconnect flag set, policy
enabled, AIDL reconnect and session start succeeding). -/
theorem C6_witness :
    (getPowerHal cfgW stReconnect (.modern true true)).attempts = 1 ∧
    ∃ a, (getPowerHal cfgW stReconnect (.modern true true)).wrapper = some (.modern a) ∧
      a.threadIds = amStale.threadIds ∧ a.targetDuration = amStale.targetDuration ∧
      ((usePowerHintSession stReconnect = true ∧ amStale.threadIds ≠ []) →
        a.sessionRunning = true ∧
        (getPowerHal cfgW stReconnect (.modern true true)).state.powerHintSessionRunning =
          true ∧
        (true = true → a.lastTargetDurationSent = amStale.targetDuration)) :=
  C6_reconnect_resumes_modern_state cfgW stReconnect amStale true true rfl rfl
    (Or.inl (by decide))

/-- One `setExpensiveRenderingExpected` call against a live wrapper, fully
characterised: the display set is updated, and a single toggle call carrying
the new aggregate is handed to the session exactly when that aggregate
differs from the last notified value (a failed send setting the reconnect
flag instead of updating the notified value). -/
theorem setExpensiveRendering_step (cfg : Config) (st : CoordState) (d : ℕ) (e : Bool)
    (outcome : ConnectOutcome) (sendOk : Bool) (hlive : wrapperLive st) :
    setExpensiveRenderingExpected cfg st d e outcome sendOk =
      (if st.notifiedExpensiveRendering ≠ decide (updatedDisplays st d e ≠ ∅) then
        (if sendOk = false then
          ({ st with expensiveDisplays := updatedDisplays st d e, reconnectPowerHal := true },
            [decide (updatedDisplays st d e ≠ ∅)])
        else
          ({ st with
              expensiveDisplays := updatedDisplays st d e
              notifiedExpensiveRendering := decide (updatedDisplays st d e ≠ ∅) },
            [decide (updatedDisplays st d e ≠ ∅)]))
      else ({ st with expensiveDisplays := updatedDisplays st d e }, [])) := by
  obtain ⟨h1, h2, w, hw, hwr⟩ := hlive
  have hlive1 : wrapperLive { st with expensiveDisplays := updatedDisplays st d e } :=
    ⟨h1, h2, w, hw, hwr⟩
  simp only [setExpensiveRenderingExpected]
  rw [getPowerHal_live cfg _ outcome hlive1]
  rw [hw]

/-- For every input sequence against a live wrapper with succeeding sends,
each emitted toggle call differs from the value notified just before it; in
particular no two consecutive toggle calls agree. -/
theorem runExpensive_chain (cfg : Config) (outcome : ConnectOutcome)
    (inputs : List (ℕ × Bool)) :
    ∀ st : CoordState, wrapperLive st →
      List.Chain' (· ≠ ·)
        (st.notifiedExpensiveRendering :: (runExpensive cfg outcome st inputs).2) := by
  induction inputs with
  | nil =>
    intro st _
    simp [runExpensive]
  | cons p rest ih =>
    obtain ⟨d, e⟩ := p
    intro st hlive
    have hstep := setExpensiveRendering_step cfg st d e outcome true hlive
    obtain ⟨h1, h2, w, hw, hwr⟩ := hlive
    by_cases hne : st.notifiedExpensiveRendering = decide (updatedDisplays st d e ≠ ∅)
    · have ih1 := ih { st with expensiveDisplays := updatedDisplays st d e }
        ⟨h1, h2, w, hw, hwr⟩
      rw [if_neg (by simp [hne])] at hstep
      simp only [runExpensive, hstep, List.nil_append]
      exact ih1
    · have ih1 := ih { st with
          expensiveDisplays := updatedDisplays st d e
          notifiedExpensiveRendering := decide (updatedDisplays st d e ≠ ∅) }
        ⟨h1, h2, w, hw, hwr⟩
      rw [if_pos hne, if_neg (by simp)] at hstep
      simp only [runExpensive, hstep, List.singleton_append]
      rw [List.chain'_cons]
      exact ⟨hne, ih1⟩

/-- C7: against a live wrapper, a `setExpensiveRendering` toggle call is
handed to the backend session if and only if the aggregate
"some display expensive" boolean after the update differs from the last
value actually notified (the call then carries the new aggregate), no
matter how many displays flipped to produce it; and over any sequence of
calls with succeeding sends, every toggle differs from its predecessor —
redundant toggles are never issued. -/
theorem C7_expensive_rendering_toggle (cfg : Config) (st : CoordState) (displayId : ℕ)
    (expected : Bool) (outcome : ConnectOutcome) (sendOk : Bool)
    (inputs : List (ℕ × Bool)) (hlive : wrapperLive st) :
    (setExpensiveRenderingExpected cfg st displayId expected outcome sendOk).2 =
      (if st.notifiedExpensiveRendering ≠ decide (updatedDisplays st displayId expected ≠ ∅)
       then [decide (updatedDisplays st displayId expected ≠ ∅)] else []) ∧
    List.Chain' (· ≠ ·)
      (st.notifiedExpensiveRendering :: (runExpensive cfg outcome st inputs).2) := by
  constructor
  · rw [setExpensiveRendering_step cfg st displayId expected outcome sendOk hlive]
    split
    · split <;> rfl
    · rfl
  · exact runExpensive_chain cfg outcome inputs st hlive

/-- C7 witness: the theorem applied against the live coordinator `stLive`
for the call `(display 1, expected)` and the sequence marking displays 1, 2
expensive then clearing both. -/
theorem C7_witness :
    (setExpensiveRenderingExpected cfgW stLive 1 true .legacy true).2 =
      (if stLive.notifiedExpensiveRendering ≠ decide (updatedDisplays stLive 1 true ≠ ∅)
       then [decide (updatedDisplays stLive 1 true ≠ ∅)] else []) ∧
    List.Chain' (· ≠ ·)
      (stLive.notifiedExpensiveRendering ::
        (runExpensive cfgW .legacy stLive [(1, true), (2, true), (1, false), (2, false)]).2) :=
  C7_expensive_rendering_toggle cfgW stLive 1 true .legacy true
    [(1, true), (2, true), (1, false), (2, false)]
    ⟨rfl, rfl, ⟨.modern { amStale with shouldReconnectHal := false }, rfl, rfl⟩⟩

/-- One armed `notifyDisplayUpdateImminent` call against a live wrapper with
boot finished, a debounce timer and a succeeding send: exactly one backend
call, the armed flag consumed, the screen-update time recorded. -/
theorem notifyImminent_armed_step (cfg : Config) (st : CoordState)
    (outcome : ConnectOutcome) (now : Int) (hboot : st.bootFinished = true)
    (htimer : st.hasTimer = true) (harmed : st.sendUpdateImminent = true)
    (hlive : wrapperLive st) :
    notifyDisplayUpdateImminentCoord cfg st outcome true now =
      ({ st with sendUpdateImminent := false, lastScreenUpdatedTime := now }, 1) := by
  obtain ⟨h1, h2, w, hw, hwr⟩ := hlive
  rcases st with ⟨b, ed, ner, phe, spc, psr, rph, sui, lsu, ht, hh, hwo⟩
  simp only at hboot htimer harmed h1 h2 hw
  subst hboot htimer harmed h1 h2 hw
  simp only [notifyDisplayUpdateImminentCoord]
  rw [getPowerHal_live cfg _ outcome ⟨rfl, rfl, w, rfl, hwr⟩]
  simp [hwr]

/-- A disarmed call with boot finished touches no backend and leaves the
flag down and the boot bit up. -/
theorem notifyImminent_unarmed_step (cfg : Config) (st : CoordState)
    (outcome : ConnectOutcome) (sendOk : Bool) (now : Int)
    (hboot : st.bootFinished = true) (hun : st.sendUpdateImminent = false) :
    (notifyDisplayUpdateImminentCoord cfg st outcome sendOk now).2 = 0 ∧
    (notifyDisplayUpdateImminentCoord cfg st outcome sendOk now).1.bootFinished = true ∧
    (notifyDisplayUpdateImminentCoord cfg st outcome sendOk now).1.sendUpdateImminent =
      false := by
  simp only [notifyDisplayUpdateImminentCoord, hboot, hun, Bool.true_eq_false,
    Bool.false_eq_true, if_false]
  split <;> simp [hboot]

/-- Disarmed runs of any length produce zero backend calls. -/
theorem runImminent_unarmed (cfg : Config) (outcome : ConnectOutcome) (sendOk : Bool)
    (now : Int) :
    ∀ (n : ℕ) (st : CoordState), st.bootFinished = true → st.sendUpdateImminent = false →
      (runImminent cfg outcome sendOk now st n).2 = 0 := by
  intro n
  induction n with
  | zero => intro st _ _; rfl
  | succ n ih =>
    intro st hboot hun
    have h := notifyImminent_unarmed_step cfg st outcome sendOk now hboot hun
    simp [runImminent, h.1, ih _ h.2.1 h.2.2]

/-- Before `onBootFinished`, `notifyDisplayUpdateImminent` is a complete
no-op: the state is untouched and no backend call is made, for any number
of calls. -/
theorem runImminent_boot_gate (cfg : Config) (outcome : ConnectOutcome) (sendOk : Bool)
    (now : Int) :
    ∀ (n : ℕ) (st : CoordState), st.bootFinished = false →
      runImminent cfg outcome sendOk now st n = (st, 0) := by
  intro n
  induction n with
  | zero => intro st _; rfl
  | succ n ih =>
    intro st h
    have hstep : notifyDisplayUpdateImminentCoord cfg st outcome sendOk now = (st, 0) := by
      simp [notifyDisplayUpdateImminentCoord, h]
    simp [runImminent, hstep, ih st h]

/-- C8: with boot finished, the debounce timer present, the armed flag up
and a live wrapper, `n + 1` consecutive `notifyDisplayUpdateImminent` calls
within one debounce window (no timer fire in between) produce exactly one
backend call; before `onBootFinished` any number of calls produces zero
backend calls and leaves the state untouched; the timer's fire re-arms the
flag. -/
theorem C8_debounce_single_call (cfg : Config) (st : CoordState)
    (outcome : ConnectOutcome) (now : Int) (n : ℕ) (hboot : st.bootFinished = true)
    (htimer : st.hasTimer = true) (harmed : st.sendUpdateImminent = true)
    (hlive : wrapperLive st) :
    (runImminent cfg outcome true now st (n + 1)).2 = 1 ∧
    (∀ (st2 : CoordState) (m : ℕ), st2.bootFinished = false →
      runImminent cfg outcome true now st2 m = (st2, 0)) ∧
    (∀ st3 : CoordState, (timerFire st3).sendUpdateImminent = true) := by
  refine ⟨?_, fun st2 m h => runImminent_boot_gate cfg outcome true now m st2 h,
    fun st3 => rfl⟩
  have hstep := notifyImminent_armed_step cfg st outcome now hboot htimer harmed hlive
  have hrest := runImminent_unarmed cfg outcome true now n
    { st with sendUpdateImminent := false, lastScreenUpdatedTime := now } hboot rfl
  simp [runImminent, hstep, hrest]

/-- C8 witness: the theorem applied at the live armed coordinator `stLive`
with five consecutive calls. -/
theorem C8_witness :
    (runImminent cfgW .legacy true 7 stLive (4 + 1)).2 = 1 ∧
    (∀ (st2 : CoordState) (m : ℕ), st2.bootFinished = false →
      runImminent cfgW .legacy true 7 st2 m = (st2, 0)) ∧
    (∀ st3 : CoordState, (timerFire st3).sendUpdateImminent = true) :=
  C8_debounce_single_call cfgW stLive .legacy 7 4 rfl rfl rfl
    ⟨rfl, rfl, ⟨.modern { amStale with shouldReconnectHal := false }, rfl, rfl⟩⟩

end

end PowerAdvisor
